import Mathlib

/-!
Verification of the `tryCatch` utility (src/src/index.ts).

The repository exports one function:

  export async function tryCatch<T, E = Error>(promise) {
    try {
      const data = await promise;
      return { data, error: null };
    } catch (error) {
      return { data: null, error: error as E };
    }
  }

We embed the runtime behaviour shallowly:
* `JSVal` is a universe of JavaScript runtime values (null, undefined,
  booleans, numbers, strings, Error objects).  The type parameters `T`/`E`
  are compile-time-only in the source, so at runtime every field holds a
  `JSVal`.
* A settled promise is a `Settlement`: it either resolved with a value or
  rejected with a value.
* `tryCatch` is modelled as a function from a settlement to
  `Except JSVal TCResult`: the `Except.error` branch represents an
  exception escaping the function, which lets us state that the function
  never throws outward.  The `try` body awaits the promise
  (`awaitPromise`, which raises the rejection value), and the `catch`
  branch converts the raised value into a returned `Failure` shape.
* Concurrent execution of two calls is modelled by interleaving the single
  suspension point of each call under an arbitrary boolean schedule
  (`runSched`).
-/

/-- Runtime JavaScript values, as far as the claims need them:
the absent markers `null` and `undefined`, primitives, and Error objects
(carrying a message). -/
inductive JSVal where
  | vnull : JSVal
  | vundef : JSVal
  | vbool : Bool → JSVal
  | vnum : Int → JSVal
  | vstr : String → JSVal
  | verror : String → JSVal
deriving DecidableEq, Repr

/-- JavaScript truthiness of a value: `null`, `undefined`, `false`, `0` and
the empty string are falsy; everything else here is truthy.  The documented
usage pattern `if (result.error) { ... }` branches on this. -/
def truthy : JSVal → Bool
  | .vnull => false
  | .vundef => false
  | .vbool b => b
  | .vnum n => n != 0
  | .vstr s => s != ""
  | .verror _ => true

/-- Whether a runtime value is an error-like object (an `Error` instance).
The source performs no such check; this predicate only serves to state
claims about non-error rejection values. -/
def isErrorLike : JSVal → Bool
  | .verror _ => true
  | _ => false

/-- The outcome of an input promise once it settles: it either resolved
with a produced value or rejected with a failure value. -/
inductive Settlement where
  | resolved : JSVal → Settlement
  | rejected : JSVal → Settlement
deriving DecidableEq, Repr

/-- The value a settlement carries, whichever way it settled. -/
def Settlement.settledValue : Settlement → JSVal
  | .resolved v => v
  | .rejected e => e

/-- The runtime shape returned by `tryCatch`: an object with a `data`
field and an `error` field (`Success<T> | Failure<E>` in the source; at
runtime both variants are just this record, with `null` as the absent
marker). -/
structure TCResult where
  data : JSVal
  error : JSVal
deriving DecidableEq, Repr

/-- Semantics of `await promise` inside the `try` block: awaiting a
resolved promise yields its value, awaiting a rejected promise raises the
rejection value as an exception. -/
def awaitPromise : Settlement → Except JSVal JSVal
  | .resolved v => .ok v
  | .rejected e => .error e

/-- Embedding of `tryCatch` (src/src/index.ts lines 105-114).  The `try`
body awaits the promise and returns `{ data, error: null }`; the `catch`
branch receives the raised value and returns `{ data: null, error }`.  An
`Except.error` result would mean an exception escaped the function. -/
def Index.tryCatch (p : Settlement) : Except JSVal TCResult :=
  match awaitPromise p with
  | .ok data => .ok { data := data, error := JSVal.vnull }
  | .error error => .ok { data := JSVal.vnull, error := error }

/-- The documented consumption pattern `if (result.error)`: the result is
classified as a failure exactly when its `error` field is truthy. -/
def hasError (r : TCResult) : Bool := truthy r.error

/-- A field is populated when it holds something other than the absent
marker `null`. -/
def populated (v : JSVal) : Bool := v != JSVal.vnull

/-- Exactly one of the two fields is populated and the other is absent. -/
def exactlyOnePopulated (r : TCResult) : Bool :=
  (populated r.data && !(populated r.error)) ||
    (!(populated r.data) && populated r.error)

/-- Both fields are populated at once. -/
def bothPopulated (r : TCResult) : Bool :=
  populated r.data && populated r.error

/-- Inspecting the discriminant of a result `n` times in a row, recording
each answer. -/
def inspectTimes (r : TCResult) (n : Nat) : List Bool :=
  (List.replicate n r).map hasError

/-- State of one in-flight `tryCatch` call: still waiting at its single
suspension point, or completed with its outcome. -/
inductive CallState where
  | waiting : Settlement → CallState
  | done : Except JSVal TCResult → CallState
deriving Repr

/-- One scheduler step of a call: a waiting call runs to completion past
its single suspension point; a finished call stays finished.  The step
reads nothing but the call's own state. -/
def stepCall : CallState → CallState
  | .waiting p => .done (Index.tryCatch p)
  | .done r => .done r

/-- Run two concurrent calls under a schedule: each `true` entry steps the
first call, each `false` entry steps the second. -/
def runSched : List Bool → CallState × CallState → CallState × CallState
  | [], s => s
  | b :: rest, (c1, c2) =>
      runSched rest (if b then (stepCall c1, c2) else (c1, stepCall c2))

/-- A call state is faithful to its own settlement `p`: it is either still
waiting on `p` or finished with exactly `Index.tryCatch p`. -/
def faithful (p : Settlement) (c : CallState) : Prop :=
  c = .waiting p ∨ c = .done (Index.tryCatch p)

theorem stepCall_faithful (p : Settlement) (c : CallState)
    (h : faithful p c) : faithful p (stepCall c) := by
  rcases h with h | h <;> subst h <;> simp [stepCall, faithful]

theorem runSched_faithful (sched : List Bool) (p q : Settlement)
    (c1 c2 : CallState) (h1 : faithful p c1) (h2 : faithful q c2) :
    faithful p (runSched sched (c1, c2)).1 ∧
      faithful q (runSched sched (c1, c2)).2 := by
  induction sched generalizing c1 c2 with
  | nil => exact ⟨h1, h2⟩
  | cons b rest ih =>
      cases b with
      | true =>
          simpa [runSched] using ih (stepCall c1) c2 (stepCall_faithful p c1 h1) h2
      | false =>
          simpa [runSched] using ih c1 (stepCall c2) h1 (stepCall_faithful q c2 h2)

/-- C1: for every input promise that settles with a produced value `v`,
`tryCatch` returns (never throws) the Success shape whose `data` field is
exactly `v` and whose `error` field is `null`. -/
theorem tryCatch_resolved (v : JSVal) :
    Index.tryCatch (.resolved v) = .ok { data := v, error := JSVal.vnull } := rfl

/-- C2: for every input promise that rejects with a value `e`, `tryCatch`
returns (never throws) the Failure shape whose `error` field is exactly
`e`, untransformed, and whose `data` field is `null`. -/
theorem tryCatch_rejected (e : JSVal) :
    Index.tryCatch (.rejected e) = .ok { data := JSVal.vnull, error := e } := rfl

/-- C3: however the input promise settles, `tryCatch` itself never lets an
exception escape: it always returns a result value. -/
theorem tryCatch_never_throws (p : Settlement) :
    ∃ r : TCResult, Index.tryCatch p = .ok r := by
  cases p with
  | resolved v => exact ⟨{ data := v, error := JSVal.vnull }, rfl⟩
  | rejected e => exact ⟨{ data := JSVal.vnull, error := e }, rfl⟩

/-- C4 counterexample: the claim "exactly one of `data`/`error` is
populated, never both absent" fails on the code.  A promise rejecting with
`null` yields the output `{ data: null, error: null }`, in which both
fields hold the absent marker. -/
theorem tryCatch_both_absent_on_null_rejection :
    Index.tryCatch (.rejected JSVal.vnull) =
        .ok { data := JSVal.vnull, error := JSVal.vnull } ∧
      exactlyOnePopulated { data := JSVal.vnull, error := JSVal.vnull } = false := by
  exact ⟨rfl, by decide⟩

/-- C4 amended: for every output of `tryCatch`, the two fields are never
both populated; when the settlement value is not `null`, exactly one field
is populated and the other is absent; when the settlement value is `null`,
both fields hold the absent marker. -/
theorem tryCatch_discriminant_invariant (p : Settlement) (r : TCResult)
    (h : Index.tryCatch p = .ok r) :
    bothPopulated r = false ∧
      (populated p.settledValue = true → exactlyOnePopulated r = true) ∧
      (populated p.settledValue = false →
        r.data = JSVal.vnull ∧ r.error = JSVal.vnull) := by
  cases p with
  | resolved v =>
      simp only [Index.tryCatch, awaitPromise, Except.ok.injEq] at h
      subst h
      refine ⟨?_, ?_, ?_⟩ <;>
        simp [bothPopulated, exactlyOnePopulated, populated,
          Settlement.settledValue]
  | rejected e =>
      simp only [Index.tryCatch, awaitPromise, Except.ok.injEq] at h
      subst h
      refine ⟨?_, ?_, ?_⟩ <;>
        simp [bothPopulated, exactlyOnePopulated, populated,
          Settlement.settledValue]

/-- Witness for C4 amended at the settlement `resolved 1`. -/
theorem tryCatch_discriminant_invariant_witness :
    bothPopulated { data := JSVal.vnum 1, error := JSVal.vnull } = false ∧
      (populated (Settlement.resolved (JSVal.vnum 1)).settledValue = true →
        exactlyOnePopulated { data := JSVal.vnum 1, error := JSVal.vnull } = true) ∧
      (populated (Settlement.resolved (JSVal.vnum 1)).settledValue = false →
        TCResult.data { data := JSVal.vnum 1, error := JSVal.vnull } = JSVal.vnull ∧
          TCResult.error { data := JSVal.vnum 1, error := JSVal.vnull } = JSVal.vnull) :=
  tryCatch_discriminant_invariant (.resolved (JSVal.vnum 1))
    { data := JSVal.vnum 1, error := JSVal.vnull } rfl

/-- C5: a promise rejecting with `null` produces `{ data: null, error:
null }`, structurally identical to the output for a promise resolving with
`null`; the documented `if (result.error)` check classifies this failure
as a success. -/
theorem tryCatch_null_rejection_indistinguishable :
    Index.tryCatch (.rejected JSVal.vnull) =
        .ok { data := JSVal.vnull, error := JSVal.vnull } ∧
      Index.tryCatch (.rejected JSVal.vnull) = Index.tryCatch (.resolved JSVal.vnull) ∧
      hasError { data := JSVal.vnull, error := JSVal.vnull } = false := by
  exact ⟨rfl, rfl, by decide⟩

/-- C6: a promise rejecting with a value that is not an error-like object
still has that value surfaced as-is in the Failure shape, with no runtime
check and no coercion. -/
theorem tryCatch_no_coercion (e : JSVal) (_h : isErrorLike e = false) :
    Index.tryCatch (.rejected e) = .ok { data := JSVal.vnull, error := e } := rfl

/-- Witness for C6 at the plain string rejection value "oops". -/
theorem tryCatch_no_coercion_witness :
    isErrorLike (JSVal.vstr "oops") = false ∧
      Index.tryCatch (.rejected (JSVal.vstr "oops")) =
        .ok { data := JSVal.vnull, error := JSVal.vstr "oops" } :=
  ⟨by decide, tryCatch_no_coercion (JSVal.vstr "oops") (by decide)⟩

/-- C7: a promise resolving with `undefined` is classified as a success:
the output is `{ data: undefined, error: null }`, with the absent-error
marker present. -/
theorem tryCatch_resolved_undefined :
    Index.tryCatch (.resolved JSVal.vundef) =
        .ok { data := JSVal.vundef, error := JSVal.vnull } ∧
      hasError { data := JSVal.vundef, error := JSVal.vnull } = false := by
  exact ⟨rfl, by decide⟩

/-- C8: two concurrent calls, interleaved under any schedule, each produce
exactly the result that the call would produce alone: each outcome depends
only on that call's own settlement, with no cross-contamination. -/
theorem tryCatch_concurrent_independent (sched : List Bool)
    (p q : Settlement) (r1 r2 : Except JSVal TCResult)
    (h : runSched sched (.waiting p, .waiting q) = (.done r1, .done r2)) :
    r1 = Index.tryCatch p ∧ r2 = Index.tryCatch q := by
  have hf := runSched_faithful sched p q (.waiting p) (.waiting q)
    (Or.inl rfl) (Or.inl rfl)
  rw [h] at hf
  obtain ⟨h1, h2⟩ := hf
  simp only [faithful] at h1 h2
  simp at h1 h2
  exact ⟨h1, h2⟩

/-- Witness for C8: one resolving and one rejecting call under the
schedule that steps the first call, then the second. -/
theorem tryCatch_concurrent_independent_witness :
    (Except.ok { data := JSVal.vnum 1, error := JSVal.vnull } :
          Except JSVal TCResult) =
        Index.tryCatch (.resolved (JSVal.vnum 1)) ∧
      (Except.ok { data := JSVal.vnull, error := JSVal.vstr "boom" } :
          Except JSVal TCResult) =
        Index.tryCatch (.rejected (JSVal.vstr "boom")) :=
  tryCatch_concurrent_independent [true, false]
    (.resolved (JSVal.vnum 1)) (.rejected (JSVal.vstr "boom"))
    (.ok { data := JSVal.vnum 1, error := JSVal.vnull })
    (.ok { data := JSVal.vnull, error := JSVal.vstr "boom" }) rfl

/-- C9: a result of `tryCatch` is an immutable value; inspecting its
discriminant any number of times yields the same answer every time. -/
theorem tryCatch_inspection_consistent (p : Settlement) (r : TCResult)
    (_h : Index.tryCatch p = .ok r) (n : Nat) :
    inspectTimes r n = List.replicate n (hasError r) := by
  simp [inspectTimes, List.map_replicate]

/-- Witness for C9: three inspections of the result for a rejecting call
all answer alike. -/
theorem tryCatch_inspection_consistent_witness :
    inspectTimes { data := JSVal.vnull, error := JSVal.vstr "boom" } 3 =
      List.replicate 3
        (hasError { data := JSVal.vnull, error := JSVal.vstr "boom" }) :=
  tryCatch_inspection_consistent (.rejected (JSVal.vstr "boom"))
    { data := JSVal.vnull, error := JSVal.vstr "boom" } rfl 3

/-- C10: for every settled input, `tryCatch` terminates through exactly one
of its two exit branches, success or failure, each of which returns a
result and is terminal. -/
theorem tryCatch_terminates_two_branches (p : Settlement) :
    (∃ v, p = .resolved v ∧
        Index.tryCatch p = .ok { data := v, error := JSVal.vnull }) ∨
      (∃ e, p = .rejected e ∧
        Index.tryCatch p = .ok { data := JSVal.vnull, error := e }) := by
  cases p with
  | resolved v => exact Or.inl ⟨v, rfl, rfl⟩
  | rejected e => exact Or.inr ⟨e, rfl, rfl⟩
